import Mathlib

/-!
Verification development for the LoopPhones circular-economy platform.

The repository holds a React/TypeScript frontend (App.tsx, Dashboard.tsx,
GradingScanner.tsx, ProductPassport.tsx, services/apiService.ts, types.ts)
and documentation of a FastAPI backend whose Python sources are not part of
the checked tree.  Frontend behaviour is embedded directly from the
TypeScript sources; backend behaviour that the specification describes is
modelled from the specification text, and every such definition is marked
with a doc comment starting with the words Modelled from the spec.
-/

/- ===================== Frontend: types.ts ===================== -/

/-- Device grade enum from frontend types.ts: the five string values
Mint, Excellent, Good, Fair, Recycle. -/
inductive DeviceGrade where
  | mint
  | excellent
  | good
  | fair
  | recycle
deriving DecidableEq

/-- The string value each enum member carries in types.ts. -/
def DeviceGrade.label : DeviceGrade → String
  | .mint => "Mint"
  | .excellent => "Excellent"
  | .good => "Good"
  | .fair => "Fair"
  | .recycle => "Recycle"

/-- Ordinal position on the five-point scale, Mint highest. -/
def DeviceGrade.rank : DeviceGrade → Nat
  | .mint => 4
  | .excellent => 3
  | .good => 2
  | .fair => 1
  | .recycle => 0

/-- The five-point grade scale as the list of its string values,
highest first. -/
def gradeScale : List String := ["Mint", "Excellent", "Good", "Fair", "Recycle"]

/- ===================== Frontend: apiService.ts request ===================== -/

/-- A JSON value, as produced by res.json() in the browser.  Numbers are
modelled as integers: every message the backend emits is representable,
and the JavaScript string rendering of an integer is exact, which keeps
the embedding faithful on all representable inputs. -/
inductive Json where
  | str (s : String)
  | num (n : Int)
  | bool (b : Bool)
  | null
  | arr (elems : List Json)
  | obj (fields : List (String × Json))

/-- JavaScript truthiness of a JSON value: empty string, zero, false and
null are falsy; arrays and objects are truthy. -/
def Json.truthy : Json → Bool
  | .str s => if s = "" then false else true
  | .num n => if n = 0 then false else true
  | .bool b => b
  | .null => false
  | .arr _ => true
  | .obj _ => true

/-- Whether a JSON value is the literal null. -/
def Json.isNull : Json → Bool
  | .null => true
  | _ => false

/-- Property access error.detail on a parsed JSON value that is not null:
a field lookup on an object, and undefined (none) on the primitives and
arrays, which JavaScript boxes so that the access yields undefined.
Access on null throws a TypeError instead; request below handles the
parsed-null body before this function is consulted, so the null case here
is never reached. -/
def Json.detailField : Json → Option Json
  | .obj fs => (fs.find? (fun p => p.1 == "detail")).map Prod.snd
  | _ => none

mutual

/-- Rendering of a JSON value as JavaScript String(x), which is the
message new Error(x) stores: a string is itself, an integer its decimal
digits, booleans true and false, null the word null, an object the string
in square brackets with the words object Object, and an array the
comma-join of its elements. -/
def Json.asMessage : Json → String
  | .str s => s
  | .num n => toString n
  | .bool b => if b then "true" else "false"
  | .null => "null"
  | .obj _ => "[object Object]"
  | .arr xs => Json.joinElems xs

/-- JavaScript Array.prototype.join with the comma separator, as used by
String(array): elements are rendered with String, except that null
renders as the empty string inside a join. -/
def Json.joinElems : List Json → String
  | [] => ""
  | [Json.null] => ""
  | [j] => Json.asMessage j
  | Json.null :: rest => "," ++ Json.joinElems rest
  | j :: rest => Json.asMessage j ++ "," ++ Json.joinElems rest

end

/-- An HTTP response as seen by apiService.request: the ok flag, the
numeric status, and the body given as some v when it parses as JSON v and
none when res.json() would reject. -/
structure HttpResponse where
  ok : Bool
  status : Nat
  body : Option Json

/-- Outcome of one call to apiService.request: the promise resolves with
the parsed body; rejects with a thrown Error carrying a message; rejects
with the TypeError raised by the error.detail access when the non-ok body
parses to null; or rejects with the json parse failure on the ok path. -/
inductive ReqOutcome where
  | value (v : Json)
  | thrown (msg : String)
  | typeError
  | parseFailed

/-- The message of the Error thrown on the non-ok path of request
(apiService.ts lines 23-26): res.json() with a catch fallback object
containing detail = HTTP status, then error.detail with the same string as
the fallback of the JavaScript or-operator. -/
def errorMessage (r : HttpResponse) : String :=
  match r.body with
  | none => "HTTP " ++ toString r.status
  | some v =>
    match v.detailField with
    | some d => if d.truthy then d.asMessage else "HTTP " ++ toString r.status
    | none => "HTTP " ++ toString r.status

/-- Embeds apiService.request (apiService.ts lines 10-29): on an ok
response the parsed body is returned (the parse failure propagates when
the body is not JSON); on a non-ok response whose body parses to the JSON
literal null, the catch is not triggered and the error.detail access
rejects the promise with a TypeError; on every other non-ok response an
Error is thrown whose message is errorMessage. -/
def request (r : HttpResponse) : ReqOutcome :=
  if r.ok then
    match r.body with
    | some v => ReqOutcome.value v
    | none => ReqOutcome.parseFailed
  else
    match r.body with
    | some v => if v.isNull then ReqOutcome.typeError else ReqOutcome.thrown (errorMessage r)
    | none => ReqOutcome.thrown (errorMessage r)

/-- Second definition following the words of the claim about request: the
thrown message is the detail field of the body whenever the body parses as
JSON containing one, and HTTP status otherwise.  Compared against the
embedding of the source above. -/
def claimedMessage (r : HttpResponse) : String :=
  match r.body with
  | some v =>
    match v.detailField with
    | some d => d.asMessage
    | none => "HTTP " ++ toString r.status
  | none => "HTTP " ++ toString r.status

/- ===================== Frontend: apiService.ts analyzeDevice ===================== -/

/-- The shape of one HTTP request prepared by the API client: path, query
parameters in order, and the optional JSON body of image URLs. -/
structure ApiRequest where
  path : String
  queryParams : List (String × String)
  body : Option (List String)

/-- JavaScript Boolean.toString. -/
def boolStr (b : Bool) : String := if b then "true" else "false"

/-- Embeds apiService.analyzeDevice (apiService.ts lines 57-69): builds
URLSearchParams with include_grading and include_pricing from the two
boolean arguments, and sends image_urls as the body when supplied.  The
client exposes no parameter selecting the health capability. -/
def analyzeDevice (deviceId : String) (includeGrading includePricing : Bool)
    (imageUrls : Option (List String)) : ApiRequest :=
  { path := "/analysis/" ++ deviceId
  , queryParams :=
      [("include_grading", boolStr includeGrading),
       ("include_pricing", boolStr includePricing)]
  , body := imageUrls }

/- ===================== Frontend: GradingScanner.captureAndAnalyze ===================== -/

/-- The grading component of a backend analysis response as the frontend
reads it; each field may be missing (undefined). -/
structure GradingPayload where
  grade : Option String
  confidence : Option ℚ
  defects : Option (List String)
  suggestedActionField : Option String
deriving DecidableEq

/-- The price component of a backend analysis response. -/
structure PricePayload where
  estimatedPrice : Option ℚ
deriving DecidableEq

/-- A backend analysis response as the frontend reads it: the grading and
price components may each be absent. -/
structure AnalysisResponse where
  grading : Option GradingPayload
  priceEstimate : Option PricePayload
deriving DecidableEq

/-- The result record GradingScanner displays after a scan. -/
structure DisplayedGrading where
  grade : String
  confidence : ℚ
  defects : List String
  suggestedAction : String
  estimatedValue : ℚ
deriving DecidableEq

/-- JavaScript x or-default for a possibly-undefined string: undefined and
the empty string fall back to the default. -/
def orElseStr (x : Option String) (d : String) : String :=
  match x with
  | some s => if s = "" then d else s
  | none => d

/-- JavaScript x or-default for a possibly-undefined number: undefined and
zero fall back to the default. -/
def orElseNum (x : Option ℚ) (d : ℚ) : ℚ :=
  match x with
  | some q => if q = 0 then d else q
  | none => d

/-- Embeds the result mapping of captureAndAnalyze (GradingScanner.tsx,
src/unnamed/part_002 lines 416-429): no result is displayed when the
grading component is absent; otherwise each missing or falsy field is
replaced by a default (grade Good, confidence 0.85, defects empty list,
suggested action Resell) and a missing price component is displayed as the
default value 980. -/
def captureAndAnalyze (resp : AnalysisResponse) : Option DisplayedGrading :=
  match resp.grading with
  | none => none
  | some g => some
    { grade := orElseStr g.grade "Good"
    , confidence := orElseNum g.confidence (17 / 20)
    , defects := (g.defects).getD []
    , suggestedAction := orElseStr g.suggestedActionField "Resell"
    , estimatedValue := orElseNum (resp.priceEstimate.bind (fun p => p.estimatedPrice)) 980 }

/- ===================== Frontend: ProductPassport.fetchDeviceData ===================== -/

/-- The device record returned by the devices endpoint as the frontend
reads it; each field may be missing. -/
structure DeviceResp where
  id : Option String
  model : Option String
  serialNumber : Option String
  status : Option String
deriving DecidableEq

/-- The passport data record ProductPassport builds and displays. -/
structure PassportView where
  id : String
  model : String
  serialNumber : String
  passportId : String
  currentGrade : String
  currentValue : ℚ
  predictedValueDropDate : String
  carbonOffset : ℚ
  status : String
deriving DecidableEq

/-- JavaScript deviceId.substring(Math.max(0, deviceId.length - 7)): the
last seven characters of the string (the whole string when shorter). -/
def lastSeven (s : String) : String := s.drop (s.length - 7)

/-- Embeds the passport construction in fetchDeviceData
(ProductPassport.tsx, src/unnamed/part_003 lines 49-64).  The function
takes only the device id, the devices-endpoint record and the optional
analysis response: no passport record is fetched at all; the displayed
passport identifier is derived locally from the device id and the carbon
offset is the fixed literal 45.2. -/
def fetchDeviceDataView (deviceId : String) (deviceData : DeviceResp)
    (analysisData : Option AnalysisResponse) : PassportView :=
  { id := orElseStr deviceData.id deviceId
  , model := orElseStr deviceData.model "Unknown Model"
  , serialNumber := orElseStr deviceData.serialNumber "N/A"
  , passportId := "SOL_DPP_" ++ lastSeven deviceId
  , currentGrade :=
      orElseStr (analysisData.bind (fun a => a.grading.bind (fun g => g.grade))) "Not Graded"
  , currentValue :=
      orElseNum (analysisData.bind (fun a => a.priceEstimate.bind (fun p => p.estimatedPrice))) 0
  , predictedValueDropDate := "2026-06-20"
  , carbonOffset := 45.2
  , status := orElseStr deviceData.status "unknown" }

/-- The grade badge the passport header renders (ProductPassport.tsx,
src/unnamed/part_003 line 124): a hard-coded letter grade. -/
def passportGradeBadge : String := "A+"

/- ===================== Backend model: lifecycle state machine ===================== -/

/-- Lifecycle event kinds (spec data model): repair, refurbish,
harvest_parts, recycle, resale. -/
inductive EventKind where
  | repair
  | refurbish
  | harvestParts
  | recycle
  | resale
deriving DecidableEq

/-- Device status values (spec data model). -/
inductive DeviceStatus where
  | active
  | underRepair
  | refurbished
  | partsHarvested
  | recycled
  | retired
deriving DecidableEq

/-- Modelled from the spec: the transition table of the lifecycle state
machine (backend lifecycle code is absent from the tree).  The spec gives
the edges active to under_repair and back for repair, active to
refurbished, active or refurbished to parts_harvested, and active,
refurbished or parts_harvested to recycled; recycled leads to retired,
which is terminal, and in particular recycle is illegal from retired.
Edges the spec does not name (for example which event retires a recycled
device, and the effect of resale) are mapped to none. -/
def nextStatus : DeviceStatus → EventKind → Option DeviceStatus
  | .active, .repair => some .underRepair
  | .underRepair, .repair => some .active
  | .active, .refurbish => some .refurbished
  | .active, .harvestParts => some .partsHarvested
  | .refurbished, .harvestParts => some .partsHarvested
  | .active, .recycle => some .recycled
  | .refurbished, .recycle => some .recycled
  | .partsHarvested, .recycle => some .recycled
  | _, _ => none

/-- The per-device lifecycle state: current status and the append-only
event ledger. -/
structure MachineState where
  status : DeviceStatus
  ledger : List EventKind
deriving DecidableEq

/-- Outcome tag of one appendEvent call. -/
inductive TransitionOutcome where
  | success
  | invalidTransition
deriving DecidableEq

/-- Modelled from the spec: appendEvent of the lifecycle state machine
(backend code absent from the tree).  The event kind is validated against
the current status; an illegal transition reports InvalidTransition and
leaves the state untouched, a legal one appends the event to the ledger
and updates the status per the transition table. -/
def appendEvent (st : MachineState) (k : EventKind) : TransitionOutcome × MachineState :=
  match nextStatus st.status k with
  | none => (TransitionOutcome.invalidTransition, st)
  | some s2 => (TransitionOutcome.success, { status := s2, ledger := st.ledger ++ [k] })

/- ===================== Backend model: circularity score ===================== -/

/-- Counts of each event kind accumulated by folding the ledger. -/
structure EventCounts where
  repairs : Nat
  refurbs : Nat
  harvests : Nat
  recycles : Nat
  resales : Nat
deriving DecidableEq

/-- One step of the ledger fold. -/
def countStep (c : EventCounts) (k : EventKind) : EventCounts :=
  match k with
  | .repair => { c with repairs := c.repairs + 1 }
  | .refurbish => { c with refurbs := c.refurbs + 1 }
  | .harvestParts => { c with harvests := c.harvests + 1 }
  | .recycle => { c with recycles := c.recycles + 1 }
  | .resale => { c with resales := c.resales + 1 }

/-- Modelled from the spec: the circularity profile is recomputed by
folding over the full ledger. -/
def eventCounts (l : List EventKind) : EventCounts :=
  l.foldl countStep (EventCounts.mk 0 0 0 0 0)

/-- Modelled from the spec: the unclamped circularity sum — base 70, plus
5 per repair, 10 per refurbishment, 8 per parts-harvest, a one-time 15
when a recycle event exists, and 1 per full year of device age at the time
of computation. -/
def rawScore (l : List EventKind) (ageYears : Nat) : Int :=
  70 + 5 * ((eventCounts l).repairs : Int) + 10 * ((eventCounts l).refurbs : Int)
    + 8 * ((eventCounts l).harvests : Int)
    + (if 0 < (eventCounts l).recycles then 15 else 0) + (ageYears : Int)

/-- Clamp of the final sum to the interval from 0 to 100. -/
def clampScore (x : Int) : Int := max 0 (min 100 x)

/-- Modelled from the spec: the circularity score of a device with the
given ledger and age, the clamped fold of the full ledger. -/
def circularityScore (l : List EventKind) (ageYears : Nat) : Int :=
  clampScore (rawScore l ageYears)

/- ===================== Backend model: telemetry window ===================== -/

/-- A telemetry snapshot (spec data model); the timestamp is in days. -/
structure TelemetrySnapshot where
  timestamp : Nat
  batteryCycleCount : Nat
  batteryHealthPct : ℚ
  temperature : ℚ
  thermalEvents : Nat
  cpuThrottles : Nat
deriving DecidableEq

/-- The snapshots of a series that fall within the trailing days before
now. -/
def trailing (series : List TelemetrySnapshot) (now days : Nat) : List TelemetrySnapshot :=
  series.filter (fun s => decide (now - days ≤ s.timestamp ∧ s.timestamp ≤ now))

/-- Result of a telemetry window request: the window, or the explicit
insufficient-history indication. -/
inductive WindowResult where
  | ok (snaps : List TelemetrySnapshot)
  | insufficientHistory
deriving DecidableEq

/-- Modelled from the spec: window(deviceId, days) of the telemetry store
(backend code absent from the tree).  When fewer snapshots than the
configured minimum count lie within the trailing days, the call returns
the explicit InsufficientHistory indication rather than a short window. -/
def window (minCount : Nat) (series : List TelemetrySnapshot) (now days : Nat) : WindowResult :=
  if (trailing series now days).length < minCount then WindowResult.insufficientHistory
  else WindowResult.ok (trailing series now days)

/- ===================== Backend model: analysis orchestrator ===================== -/

/-- A health prediction (spec data model). -/
structure HealthPrediction where
  rulDays : Nat
  failureProbability : ℚ
  degradationRate : ℚ
deriving DecidableEq

/-- A grading result from the grading capability (spec data model). -/
structure GradingResult where
  grade : String
  confidence : ℚ
  defects : List String
deriving DecidableEq

/-- A price estimate from the pricing capability (spec data model). -/
structure PriceEstimate where
  price : ℚ
  confidenceLow : ℚ
  confidenceHigh : ℚ
deriving DecidableEq

/-- Gateway contract: a capability either succeeds with a value or is
Unavailable (timeout or transport failure absorbed by the gateway). -/
inductive CapResult (α : Type) where
  | ok (value : α)
  | unavailable
deriving DecidableEq

/-- The successful value of a capability call, if any. -/
def CapResult.toOption : CapResult α → Option α
  | .ok v => some v
  | .unavailable => none

/-- Whether a capability call came back Unavailable. -/
def CapResult.isUnavailable : CapResult α → Bool
  | .ok _ => false
  | .unavailable => true

/-- The settled outcomes of the three capability calls of one analysis
run. -/
structure GatewayOutcomes where
  health : CapResult HealthPrediction
  grading : CapResult GradingResult
  pricing : CapResult PriceEstimate

/-- The analyze options: which of the three capabilities to include. -/
structure AnalyzeOptions where
  includeHealth : Bool
  includeGrading : Bool
  includePricing : Bool
deriving DecidableEq

/-- The fused analysis: each component explicitly absent (none) when not
requested, skipped, or unavailable. -/
structure FusedAnalysis where
  health : Option HealthPrediction
  grading : Option GradingResult
  pricing : Option PriceEstimate
deriving DecidableEq

/-- The hard failure of analyze. -/
inductive AnalyzeError where
  | allCapabilitiesUnavailable
deriving DecidableEq

/-- Modelled from the spec: the fusion step of analyze (backend
orchestrator code absent from the tree).  histOk records whether the
telemetry window was sufficient; health is invoked only when requested and
histOk.  The call fails with AllCapabilitiesUnavailable exactly when at
least one capability was requested and every requested capability is
unavailable (a health capability skipped for insufficient history is
absent but not unavailable, so it blocks the hard failure); otherwise each
unavailable or skipped component is marked absent in the fused result. -/
def analyze (opts : AnalyzeOptions) (histOk : Bool) (gw : GatewayOutcomes) :
    Except AnalyzeError FusedAnalysis :=
  let anyRequested := opts.includeHealth || opts.includeGrading || opts.includePricing
  let allUnavail := anyRequested
      && (!opts.includeHealth || (histOk && gw.health.isUnavailable))
      && (!opts.includeGrading || gw.grading.isUnavailable)
      && (!opts.includePricing || gw.pricing.isUnavailable)
  if allUnavail then Except.error AnalyzeError.allCapabilitiesUnavailable
  else Except.ok
    { health := if opts.includeHealth && histOk then gw.health.toOption else none
    , grading := if opts.includeGrading then gw.grading.toOption else none
    , pricing := if opts.includePricing then gw.pricing.toOption else none }

/-- Modelled from the spec: one analyze call including the telemetry
window pull — the window is requested first and health is skipped on
InsufficientHistory rather than failing the whole call. -/
def analyzeRun (opts : AnalyzeOptions) (minCount : Nat) (series : List TelemetrySnapshot)
    (now days : Nat) (gw : GatewayOutcomes) : Except AnalyzeError FusedAnalysis :=
  let histOk := match window minCount series now days with
    | WindowResult.ok _ => true
    | WindowResult.insufficientHistory => false
  analyze opts histOk gw

/- ===================== Shared sample inputs ===================== -/

/-- A sample analysis response whose grading component is fully populated
while the price component is absent. -/
def respNoPrice : AnalysisResponse :=
  AnalysisResponse.mk
    (some (GradingPayload.mk (some "Fair") (some (9 / 10)) (some []) (some "Recycle")))
    none

/-- A sample devices-endpoint record. -/
def sampleDeviceResp : DeviceResp :=
  DeviceResp.mk (some "LP-99X-2026-ALPHA") (some "iPhone 15 Pro")
    (some "SN-001") (some "active")

/- ===================== C10: apiService.request ===================== -/

/-- C10 counterexample: a non-ok response whose body parses as JSON
containing a detail field holding the empty string.  The claim says the
thrown message is that detail field; the code falls back to HTTP 404
because the empty string is falsy under the JavaScript or-operator. -/
theorem request_falsy_detail_counterexample :
    request (HttpResponse.mk false 404 (some (Json.obj [("detail", Json.str "")]))) =
      ReqOutcome.thrown "HTTP 404" ∧
    claimedMessage (HttpResponse.mk false 404 (some (Json.obj [("detail", Json.str "")]))) = "" ∧
    ("HTTP 404" == "") = false :=
  ⟨rfl, rfl, rfl⟩

/-- C10 (amended): request resolves with the parsed JSON body exactly
when the response is ok and the body parses as JSON; on a non-ok response
it never resolves: a body parsing to the JSON literal null rejects with
the TypeError of the detail access, otherwise an Error is thrown whose
message is the String rendering of the detail field when the body parses
as JSON containing a truthy detail, and the string HTTP status
otherwise. -/
theorem request_semantics (r : HttpResponse) :
    (∀ v, request r = ReqOutcome.value v ↔ (r.ok = true ∧ r.body = some v)) ∧
    (r.ok = false →
      ((r.body = some Json.null ∧ request r = ReqOutcome.typeError) ∨
       (∃ v d, r.body = some v ∧ v.detailField = some d ∧ d.truthy = true ∧
          request r = ReqOutcome.thrown d.asMessage) ∨
        request r = ReqOutcome.thrown ("HTTP " ++ toString r.status))) := by
  obtain ⟨ok, status, body⟩ := r
  constructor
  · intro v
    cases ok
    · cases body with
      | none => simp [request]
      | some w => cases hn : w.isNull <;> simp [request, hn]
    · cases body <;> simp [request]
  · intro hok
    subst hok
    cases body with
    | none => right; right; simp [request, errorMessage]
    | some v =>
      cases hn : v.isNull with
      | true =>
        left
        have hv : v = Json.null := by cases v <;> simp_all [Json.isNull]
        subst hv
        exact ⟨rfl, by simp [request, Json.isNull]⟩
      | false =>
        cases hd : v.detailField with
        | none => right; right; simp [request, errorMessage, hd, hn]
        | some d =>
          cases ht : d.truthy
          · right; right; simp [request, errorMessage, hd, ht, hn]
          · right; left
            exact ⟨v, d, rfl, hd, ht, by simp [request, errorMessage, hd, ht, hn]⟩

/-- C10 witness: a concrete ok response resolving with its parsed body,
through request_semantics. -/
theorem request_semantics_witness :
    request (HttpResponse.mk true 200 (some (Json.obj []))) = ReqOutcome.value (Json.obj []) :=
  ((request_semantics (HttpResponse.mk true 200 (some (Json.obj [])))).1 (Json.obj [])).mpr
    ⟨rfl, rfl⟩

/- ===================== C6: apiService.analyzeDevice options ===================== -/

/-- C6 counterexample: the query parameters sent by a concrete
analyzeDevice call name only include_grading and include_pricing; no
include_health parameter exists, so the health capability is not
individually selectable by the caller. -/
theorem analyzeDevice_no_health_counterexample :
    ((analyzeDevice "LP-99X-2026-ALPHA" true true none).queryParams.map Prod.fst) =
      ["include_grading", "include_pricing"] ∧
    (((analyzeDevice "LP-99X-2026-ALPHA" true true none).queryParams.map
        Prod.fst).contains "include_health") = false :=
  ⟨rfl, rfl⟩

/-- C6 (amended): analyzeDevice independently selects grading and pricing
through its two boolean arguments and optionally supplies fresh images as
the body, but exposes no parameter selecting the health capability. -/
theorem analyzeDevice_options (deviceId : String) (g p : Bool)
    (imgs : Option (List String)) :
    (analyzeDevice deviceId g p imgs).queryParams =
      [("include_grading", boolStr g), ("include_pricing", boolStr p)] ∧
    (analyzeDevice deviceId g p imgs).body = imgs ∧
    (((analyzeDevice deviceId g p imgs).queryParams.map Prod.fst).contains
      "include_health") = false :=
  ⟨rfl, rfl, rfl⟩

/- ===================== C3: captureAndAnalyze defaulting ===================== -/

/-- C3 counterexample: an analysis response with a populated grading
component and no price component.  The claim says no default price is ever
substituted for a missing component; captureAndAnalyze displays the
default value 980 for the absent price. -/
theorem captureAndAnalyze_price_default_counterexample :
    respNoPrice.priceEstimate = none ∧
    captureAndAnalyze respNoPrice =
      some (DisplayedGrading.mk "Fair" (9 / 10) [] "Recycle" 980) := by
  constructor
  · rfl
  · norm_num [captureAndAnalyze, respNoPrice, orElseNum, orElseStr]
    exact ⟨fun h => absurd h (by decide), fun h => absurd h (by decide)⟩

/-- C3 (amended): when the grading component is absent captureAndAnalyze
displays nothing; when grading is present, missing fields are silently
defaulted (grade Good, confidence 0.85, suggested action Resell) and a
missing price component is displayed as the default value 980. -/
theorem captureAndAnalyze_defaults (resp : AnalysisResponse) :
    (resp.grading = none → captureAndAnalyze resp = none) ∧
    (∀ g, resp.grading = some g →
      ∃ d, captureAndAnalyze resp = some d ∧
        (g.grade = none → d.grade = "Good") ∧
        (g.confidence = none → d.confidence = 17 / 20) ∧
        (g.suggestedActionField = none → d.suggestedAction = "Resell") ∧
        (resp.priceEstimate = none → d.estimatedValue = 980)) := by
  obtain ⟨gr, pe⟩ := resp
  constructor
  · intro h
    simp only at h
    subst h
    rfl
  · intro g hg
    simp only at hg
    subst hg
    refine ⟨_, rfl, ?_, ?_, ?_, ?_⟩
    · intro h; simp [orElseStr, h]
    · intro h; simp [orElseNum, h]
    · intro h; simp [orElseStr, h]
    · intro h; simp only at h; subst h; rfl

/-- C3 witness: an absent grading component yields no displayed result,
through captureAndAnalyze_defaults. -/
theorem captureAndAnalyze_defaults_witness :
    captureAndAnalyze (AnalysisResponse.mk none none) = none :=
  (captureAndAnalyze_defaults (AnalysisResponse.mk none none)).1 rfl

/- ===================== C8: the grade scale ===================== -/

/-- C8 counterexample: grade-valued strings outside the five-point scale
do appear in the frontend — ProductPassport substitutes Not Graded for the
current grade when no grading component is available, and its header
renders a hard-coded letter grade A+; neither string is on the scale. -/
theorem grade_out_of_scale_counterexample :
    (fetchDeviceDataView "LP-99X-2026-ALPHA" sampleDeviceResp none).currentGrade =
      "Not Graded" ∧
    gradeScale.contains "Not Graded" = false ∧
    passportGradeBadge = "A+" ∧
    gradeScale.contains "A+" = false :=
  ⟨rfl, rfl, rfl, rfl⟩

/-- C8 (amended): the DeviceGrade enum defines exactly the five-point
ordinal scale Mint, Excellent, Good, Fair, Recycle (Mint highest), and
every enum value maps onto the scale; however the frontend also produces
grade strings outside the scale — the Not Graded fallback of
ProductPassport and the hard-coded A+ badge of the passport header. -/
theorem deviceGrade_scale :
    gradeScale =
      [DeviceGrade.label DeviceGrade.mint, DeviceGrade.label DeviceGrade.excellent,
       DeviceGrade.label DeviceGrade.good, DeviceGrade.label DeviceGrade.fair,
       DeviceGrade.label DeviceGrade.recycle] ∧
    (∀ g : DeviceGrade, gradeScale.contains (DeviceGrade.label g) = true) ∧
    DeviceGrade.rank DeviceGrade.mint > DeviceGrade.rank DeviceGrade.excellent ∧
    DeviceGrade.rank DeviceGrade.excellent > DeviceGrade.rank DeviceGrade.good ∧
    DeviceGrade.rank DeviceGrade.good > DeviceGrade.rank DeviceGrade.fair ∧
    DeviceGrade.rank DeviceGrade.fair > DeviceGrade.rank DeviceGrade.recycle ∧
    gradeScale.length = 5 ∧
    gradeScale.contains "Not Graded" = false ∧
    gradeScale.contains "A+" = false ∧
    (fetchDeviceDataView "LP-99X-2026-ALPHA" sampleDeviceResp none).currentGrade =
      "Not Graded" ∧
    passportGradeBadge = "A+" := by
  refine ⟨rfl, ?_, ?_, ?_, ?_, ?_, rfl, rfl, rfl, rfl, rfl⟩
  · intro g; cases g <;> rfl
  all_goals decide

/- ===================== C9: the presented passport ===================== -/

/-- C9 counterexample: for the concrete device LP-99X-2026-ALPHA the
displayed passport identifier equals SOL_DPP_ followed by the last seven
characters of the device id, and the displayed carbon offset is the fixed
literal 45.2, whatever analysis data is supplied — the view never reads a
minted passport record (fetchDeviceData takes none as input). -/
theorem passport_local_derivation_counterexample :
    (fetchDeviceDataView "LP-99X-2026-ALPHA" sampleDeviceResp none).passportId =
      "SOL_DPP_6-ALPHA" ∧
    (fetchDeviceDataView "LP-99X-2026-ALPHA" sampleDeviceResp (some respNoPrice)).passportId =
      "SOL_DPP_6-ALPHA" ∧
    (fetchDeviceDataView "LP-99X-2026-ALPHA" sampleDeviceResp none).carbonOffset = 45.2 ∧
    (fetchDeviceDataView "LP-99X-2026-ALPHA" sampleDeviceResp
      (some respNoPrice)).carbonOffset = 45.2 ∧
    "SOL_DPP_6-ALPHA" = "SOL_DPP_" ++ lastSeven "LP-99X-2026-ALPHA" :=
  ⟨rfl, rfl, rfl, rfl, rfl⟩

/-- C9 (amended): the passport presented by ProductPassport does not come
from a minted passport record — for every device id, device record and
analysis response, the displayed passport identifier is the local
derivation SOL_DPP_ plus the last seven characters of the device id, and
the displayed carbon offset is the fixed constant 45.2. -/
theorem passportView_derivation (deviceId : String) (dd : DeviceResp)
    (ad : Option AnalysisResponse) :
    (fetchDeviceDataView deviceId dd ad).passportId =
      "SOL_DPP_" ++ deviceId.drop (deviceId.length - 7) ∧
    (fetchDeviceDataView deviceId dd ad).carbonOffset = 45.2 ∧
    (fetchDeviceDataView deviceId dd ad).passportId =
      (fetchDeviceDataView deviceId dd none).passportId :=
  ⟨rfl, rfl, rfl⟩

/- ===================== C1: circularity score ===================== -/

/-- The repairs field of the ledger fold counts repair events. -/
theorem foldl_countStep_repairs (l : List EventKind) (c : EventCounts) :
    (l.foldl countStep c).repairs = c.repairs + l.count EventKind.repair := by
  induction l generalizing c with
  | nil => simp
  | cons k t ih =>
    cases k <;> simp [countStep, ih, List.count_cons] <;> omega

/-- The refurbs field of the ledger fold counts refurbish events. -/
theorem foldl_countStep_refurbs (l : List EventKind) (c : EventCounts) :
    (l.foldl countStep c).refurbs = c.refurbs + l.count EventKind.refurbish := by
  induction l generalizing c with
  | nil => simp
  | cons k t ih =>
    cases k <;> simp [countStep, ih, List.count_cons] <;> omega

/-- The harvests field of the ledger fold counts harvest_parts events. -/
theorem foldl_countStep_harvests (l : List EventKind) (c : EventCounts) :
    (l.foldl countStep c).harvests = c.harvests + l.count EventKind.harvestParts := by
  induction l generalizing c with
  | nil => simp
  | cons k t ih =>
    cases k <;> simp [countStep, ih, List.count_cons] <;> omega

/-- The recycles field of the ledger fold counts recycle events. -/
theorem foldl_countStep_recycles (l : List EventKind) (c : EventCounts) :
    (l.foldl countStep c).recycles = c.recycles + l.count EventKind.recycle := by
  induction l generalizing c with
  | nil => simp
  | cons k t ih =>
    cases k <;> simp [countStep, ih, List.count_cons] <;> omega

/-- The counts obtained by folding the ledger agree with List.count. -/
theorem eventCounts_eq_count (l : List EventKind) :
    (eventCounts l).repairs = l.count EventKind.repair ∧
    (eventCounts l).refurbs = l.count EventKind.refurbish ∧
    (eventCounts l).harvests = l.count EventKind.harvestParts ∧
    (eventCounts l).recycles = l.count EventKind.recycle := by
  refine ⟨?_, ?_, ?_, ?_⟩ <;>
    simp [eventCounts, foldl_countStep_repairs, foldl_countStep_refurbs,
      foldl_countStep_harvests, foldl_countStep_recycles]

/-- C1: the circularity score recomputed by folding the full ledger equals
base 70 plus 5 per repair, 10 per refurbishment, 8 per parts-harvest, a
one-time 15 when any recycle event exists, and 1 per full year of device
age, clamped to the interval from 0 to 100; it always lies in that
interval, and the two-year-old device with ledger repair, refurbish,
recycle scores exactly 100. -/
theorem circularityScore_spec :
    (∀ (l : List EventKind) (age : Nat),
      circularityScore l age =
        max 0 (min 100 (70 + 5 * (l.count EventKind.repair : Int)
          + 10 * (l.count EventKind.refurbish : Int)
          + 8 * (l.count EventKind.harvestParts : Int)
          + (if 0 < l.count EventKind.recycle then 15 else 0) + (age : Int))) ∧
      0 ≤ circularityScore l age ∧ circularityScore l age ≤ 100) ∧
    circularityScore [EventKind.repair, EventKind.refurbish, EventKind.recycle] 2 = 100 := by
  constructor
  · intro l age
    refine ⟨?_, ?_, ?_⟩
    · simp only [circularityScore, clampScore, rawScore,
        (eventCounts_eq_count l).1, (eventCounts_eq_count l).2.1,
        (eventCounts_eq_count l).2.2.1, (eventCounts_eq_count l).2.2.2]
    · exact le_max_left 0 _
    · exact max_le (by norm_num) (min_le_left 100 _)
  · decide

/- ===================== C4: recycle from retired ===================== -/

/-- C4: appending a recycle event to a device whose status is retired
reports InvalidTransition and leaves both the ledger length and the device
status unchanged — the ledger is never appended on the illegal
transition. -/
theorem appendEvent_retired_recycle (st : MachineState)
    (h : st.status = DeviceStatus.retired) :
    (appendEvent st EventKind.recycle).1 = TransitionOutcome.invalidTransition ∧
    (appendEvent st EventKind.recycle).2.ledger.length = st.ledger.length ∧
    (appendEvent st EventKind.recycle).2.status = st.status := by
  obtain ⟨s, l⟩ := st
  simp only at h
  subst h
  exact ⟨rfl, rfl, rfl⟩

/-- C4 witness: a concrete retired device with a one-event ledger, through
appendEvent_retired_recycle. -/
theorem appendEvent_retired_recycle_witness :
    (appendEvent (MachineState.mk DeviceStatus.retired [EventKind.repair])
        EventKind.recycle).1 = TransitionOutcome.invalidTransition ∧
    (appendEvent (MachineState.mk DeviceStatus.retired [EventKind.repair])
        EventKind.recycle).2.ledger.length = 1 ∧
    (appendEvent (MachineState.mk DeviceStatus.retired [EventKind.repair])
        EventKind.recycle).2.status = DeviceStatus.retired :=
  appendEvent_retired_recycle (MachineState.mk DeviceStatus.retired [EventKind.repair]) rfl

/- ===================== C2: AllCapabilitiesUnavailable ===================== -/

/-- C2: with a sufficient telemetry window, analyze fails with
AllCapabilitiesUnavailable exactly when every requested capability is
unavailable; and whenever at least one requested capability succeeds, it
returns a fused analysis in which each unavailable component is marked
absent and each successful requested component carries its value. -/
theorem analyze_allUnavailable_iff (opts : AnalyzeOptions) (gw : GatewayOutcomes)
    (hreq : (opts.includeHealth || opts.includeGrading || opts.includePricing) = true) :
    ((analyze opts true gw = Except.error AnalyzeError.allCapabilitiesUnavailable) ↔
      ((opts.includeHealth = true → gw.health.isUnavailable = true) ∧
       (opts.includeGrading = true → gw.grading.isUnavailable = true) ∧
       (opts.includePricing = true → gw.pricing.isUnavailable = true))) ∧
    (((opts.includeHealth = true ∧ gw.health.isUnavailable = false) ∨
      (opts.includeGrading = true ∧ gw.grading.isUnavailable = false) ∨
      (opts.includePricing = true ∧ gw.pricing.isUnavailable = false)) →
      ∃ f, analyze opts true gw = Except.ok f ∧
        (gw.health.isUnavailable = true → f.health = none) ∧
        (gw.grading.isUnavailable = true → f.grading = none) ∧
        (gw.pricing.isUnavailable = true → f.pricing = none) ∧
        (∀ h, opts.includeHealth = true → gw.health = CapResult.ok h → f.health = some h) ∧
        (∀ g, opts.includeGrading = true → gw.grading = CapResult.ok g → f.grading = some g) ∧
        (∀ p, opts.includePricing = true → gw.pricing = CapResult.ok p →
          f.pricing = some p)) := by
  obtain ⟨ih, ig, ip⟩ := opts
  obtain ⟨gh, gg, gp⟩ := gw
  simp only at hreq
  cases ih <;> cases ig <;> cases ip <;>
    first
    | exact absurd hreq (by decide)
    | cases gh <;> cases gg <;> cases gp <;>
        simp [analyze, CapResult.isUnavailable, CapResult.toOption]

/-- C2 witness: all three capabilities requested and all unavailable fails
with AllCapabilitiesUnavailable, through analyze_allUnavailable_iff. -/
theorem analyze_allUnavailable_witness :
    analyze (AnalyzeOptions.mk true true true) true
        (GatewayOutcomes.mk CapResult.unavailable CapResult.unavailable
          CapResult.unavailable) =
      Except.error AnalyzeError.allCapabilitiesUnavailable :=
  ((analyze_allUnavailable_iff (AnalyzeOptions.mk true true true)
      (GatewayOutcomes.mk CapResult.unavailable CapResult.unavailable CapResult.unavailable)
      rfl).1).mpr ⟨fun _ => rfl, fun _ => rfl, fun _ => rfl⟩

/- ===================== C5: InsufficientHistory ===================== -/

/-- C5: when the snapshots within the trailing window number fewer than
the configured minimum, window returns the explicit InsufficientHistory
indication rather than a shorter sequence, and an analyze call that
requested health on such a device still succeeds with the health component
marked absent. -/
theorem window_insufficient_history_spec (minCount : Nat)
    (series : List TelemetrySnapshot) (now days : Nat)
    (opts : AnalyzeOptions) (gw : GatewayOutcomes)
    (hshort : (trailing series now days).length < minCount)
    (hH : opts.includeHealth = true) :
    window minCount series now days = WindowResult.insufficientHistory ∧
    ∃ f, analyzeRun opts minCount series now days gw = Except.ok f ∧ f.health = none := by
  have hw : window minCount series now days = WindowResult.insufficientHistory := by
    simp [window, hshort]
  refine ⟨hw, ?_⟩
  obtain ⟨ih, ig, ip⟩ := opts
  simp only at hH
  subst hH
  simp [analyzeRun, hw, analyze]

/-- A demonstration telemetry snapshot with the given timestamp. -/
def demoSnap (t : Nat) : TelemetrySnapshot := TelemetrySnapshot.mk t 100 95 30 0 0

/-- Ten days of demonstration history, timestamps 31 to 40. -/
def demoSeries : List TelemetrySnapshot := (List.range 10).map (fun i => demoSnap (31 + i))

/-- Demonstration gateway outcomes: health unavailable, grading and
pricing successful. -/
def demoGateway : GatewayOutcomes :=
  GatewayOutcomes.mk CapResult.unavailable
    (CapResult.ok (GradingResult.mk "Good" 1 []))
    (CapResult.ok (PriceEstimate.mk 500 450 550))

/-- C5 witness: ten days of history against a thirty-snapshot minimum
returns InsufficientHistory, and the analyze call still succeeds with
health absent, through window_insufficient_history_spec. -/
theorem window_insufficient_history_witness :
    window 30 demoSeries 40 30 = WindowResult.insufficientHistory ∧
    analyzeRun (AnalyzeOptions.mk true true true) 30 demoSeries 40 30 demoGateway =
      Except.ok (FusedAnalysis.mk none (some (GradingResult.mk "Good" 1 []))
        (some (PriceEstimate.mk 500 450 550))) :=
  ⟨(window_insufficient_history_spec 30 demoSeries 40 30 (AnalyzeOptions.mk true true true)
      demoGateway (by decide) rfl).1, by rfl⟩
